import Mathlib

/-!
Verification development for the `eheim_digital` Home Assistant custom
integration (REST client, polling coordinator, switch platform, config flow).

The Python sources are shallowly embedded: exceptions become `Except`,
the outcome of an HTTP exchange becomes an explicit `HttpOutcome` value,
Python dictionaries become association lists with Python-dict update
semantics, and calls to `async_write_ha_state` are counted.
-/

/-- The exception taxonomy of `api_client.py`: `EheimDigitalError` and its
subclasses.  `base` stands for a bare `EheimDigitalError` instance (raised by
the config flow when no devices are found). -/
inductive EheimError
  | connectionError
  | connectionTimeout
  | authError
  | notFound
  | base
  deriving Repr, DecidableEq

/-- Python-level exceptions that may escape the API client: a `KeyError` from
a missing dictionary key, or a domain (`EheimDigitalError`) exception. -/
inductive PyError
  | keyError (key : String)
  | domain (e : EheimError)
  deriving Repr, DecidableEq

/-- The value returned by `_send_request` on the 200 path: a JSON document
decoded from the body (`json.loads` is deterministic, so the parsed document
is represented by the body text it was parsed from), the raw body text for an
unrecognised content type, or Python's implicit `None` when a 2xx status
other than 200 falls through the function without returning. -/
inductive ReqResult
  | jsonDoc (body : String)
  | rawText (body : String)
  | noneResult
  deriving Repr, DecidableEq

/-- The outcome of the underlying `aiohttp` exchange, as observed inside the
`try` block of `_send_request`: a `ClientError` raised by the session, a
builtin `ConnectionError`, a `TimeoutError`, or an HTTP response with a
status, a `Content-Type` header value and a body. -/
inductive HttpOutcome
  | clientError
  | connError
  | timeoutError
  | response (status : Nat) (contentType : String) (body : String)
  deriving Repr, DecidableEq

/-- Embedding of `EheimDigitalAPIClient._send_request` (api_client.py lines
61-93).  `response.raise_for_status()` raises `ClientResponseError` — a
`ClientError` subclass — for every status of at least 400, and the
`except ClientError` clause converts it to `EheimDigitalConnectionError`;
the `404` and `401/403` checks that follow it in the source are therefore
unreachable.  A 2xx status other than 200 falls off the end of the function
and returns `None`. -/
def sendRequest : HttpOutcome → Except EheimError ReqResult
  | .clientError => .error .connectionError
  | .connError => .error .connectionError
  | .timeoutError => .error .connectionTimeout
  | .response status contentType body =>
    if 400 ≤ status then .error .connectionError
    else if status = 404 then .error .notFound
    else if status = 401 ∨ status = 403 then .error .authError
    else if status = 200 then
      if contentType = "text/json" then .ok (.jsonDoc body)
      else if contentType = "application/json" then .ok (.jsonDoc body)
      else .ok (.rawText body)
    else .ok .noneResult

/-- C1: evaluation of `_send_request` at the statuses the claim is about.
The claim says a 404 yields `NotFound` and 401/403 yield `AuthError`; the
code instead yields `ConnectionError` for all of them, because
`raise_for_status()` throws a `ClientError` before the status checks run. -/
theorem sendRequest_status_mapping_bug :
    sendRequest (.response 404 "application/json" "body") = .error .connectionError
    ∧ sendRequest (.response 401 "application/json" "body") = .error .connectionError
    ∧ sendRequest (.response 403 "application/json" "body") = .error .connectionError
    ∧ sendRequest (.response 404 "application/json" "body") ≠ .error .notFound
    ∧ sendRequest (.response 401 "application/json" "body") ≠ .error .authError := by
  refine ⟨rfl, rfl, rfl, ?_, ?_⟩ <;> simp [sendRequest]

/-- C5: on a 200 response the decoder produces the same parsed document for
`Content-Type: text/json` as for `application/json`, and falls back to the
raw body text exactly when the content type is neither of the two. -/
theorem sendRequest_json_content_types (body contentType : String) :
    sendRequest (.response 200 "application/json" body) = .ok (.jsonDoc body)
    ∧ sendRequest (.response 200 "text/json" body) = .ok (.jsonDoc body)
    ∧ sendRequest (.response 200 "application/json" body)
        = sendRequest (.response 200 "text/json" body)
    ∧ (contentType ≠ "application/json" → contentType ≠ "text/json" →
        sendRequest (.response 200 contentType body) = .ok (.rawText body)) := by
  refine ⟨?_, ?_, ?_, ?_⟩
  · simp [sendRequest]
  · simp [sendRequest]
  · simp [sendRequest]
  · intro h1 h2
    simp [sendRequest, h1, h2]

/-- C5 witness: the content-type theorem at a concrete body and at the
concrete fallback content type `text/plain`. -/
theorem sendRequest_json_content_types_witness :
    sendRequest (.response 200 "text/plain" "abc") = .ok (.rawText "abc") :=
  (sendRequest_json_content_types "abc" "text/plain").2.2.2
    (by decide) (by decide)

/-! ## Python dictionaries

Python `dict` assignment `m[k] = v` replaces the value of an existing key in
place and otherwise appends the new pair at the end; `m[k]` looks a key up
and raises `KeyError` when absent (modelled as `none`). -/

/-- Python `m[k] = v` on a dictionary represented as an association list. -/
def dictInsert {δ : Type} : List (String × δ) → String → δ → List (String × δ)
  | [], k, v => [(k, v)]
  | (k', v') :: rest, k, v =>
    if k' = k then (k, v) :: rest else (k', v') :: dictInsert rest k v

/-- Python `m.get(k)` / `m[k]` (with `KeyError` as `none`). -/
def dictLookup {δ : Type} : List (String × δ) → String → Option δ
  | [], _ => none
  | (k', v) :: rest, k => if k' = k then some v else dictLookup rest k

theorem dictLookup_dictInsert_self {δ : Type} (m : List (String × δ))
    (k : String) (v : δ) : dictLookup (dictInsert m k v) k = some v := by
  induction m with
  | nil => simp [dictInsert, dictLookup]
  | cons p rest ih =>
    by_cases h : p.1 = k
    · simp [dictInsert, dictLookup, h]
    · simp [dictInsert, dictLookup, h, ih]

theorem dictLookup_dictInsert_other {δ : Type} (m : List (String × δ))
    (k k' : String) (v : δ) (hne : k' ≠ k) :
    dictLookup (dictInsert m k v) k' = dictLookup m k' := by
  have hkk : k ≠ k' := Ne.symm hne
  induction m with
  | nil => simp [dictInsert, dictLookup, hkk]
  | cons p rest ih =>
    by_cases h : p.1 = k
    · simp [dictInsert, dictLookup, h, hkk]
    · simp [dictInsert, dictLookup, h, ih]

/-! ## Device model and coordinator -/

/-- The fields of `EheimDevice` (devices.py) that the claims depend on:
the stable identity `mac`, the network address `ip`, and the API dialect
selector `version`. -/
structure EheimDevice where
  mac : String
  ip : String
  version : String
  deriving Repr, DecidableEq

/-- The userdata payload fields that the device parser extracts. -/
structure Userdata where
  mac : String
  version : String
  deriving Repr, DecidableEq

/-- Modelled from the spec: `devices.py` (the `EheimDevice` constructor) is
not among the sources.  Per the spec it is pure parsing that extracts known
fields by fixed key names from the userdata payload and passes through the
source IP given separately by the caller. -/
def mkEheimDevice (response : Userdata) (ip : String) : EheimDevice :=
  { mac := response.mac, ip := ip, version := response.version }

/-- The `for` loop of `fetch_devices` (api_client.py lines 117-121): one
`userdata` GET per address of `clientIPList`, in list order, constructing an
`EheimDevice` from each response and the address it was fetched from; an
error from any GET propagates and aborts the loop. -/
def fetchDevicesLoop (getUserdata : String → Except EheimError Userdata) :
    List String → Except EheimError (List EheimDevice)
  | [] => .ok []
  | ip :: rest =>
    match getUserdata ip with
    | .error e => .error e
    | .ok response =>
      match fetchDevicesLoop getUserdata rest with
      | .error e => .error e
      | .ok devs => .ok (mkEheimDevice response ip :: devs)

/-- Embedding of `EheimDigitalAPIClient.fetch_devices` (api_client.py lines
111-130): GET the `devicelist` document from the master host, extract
`clientIPList`, then run the per-device loop.  `getDevicelist` is the
outcome of the initial GET, already projected to `clientIPList`. -/
def fetch_devices (getDevicelist : Except EheimError (List String))
    (getUserdata : String → Except EheimError Userdata) :
    Except EheimError (List EheimDevice) :=
  match getDevicelist with
  | .error e => .error e
  | .ok clientIPList => fetchDevicesLoop getUserdata clientIPList

/-- Embedding of `EheimDigitalAPIClient.get_device_data` (api_client.py
lines 132-140): `DEVICE_ENDPOINTS[device.version]` raises `KeyError` when
the version is not a key of the table; otherwise the client GETs the looked
up endpoint from the master host with `params = {to: device.mac}`.
`deviceEndpoints` stands for the `DEVICE_ENDPOINTS` table of `const.py`
(not among the sources; the spec describes it as a small static
version-to-endpoint table).  `getReq` receives host, endpoint and the `to`
parameter of the GET that is issued. -/
def get_device_data {δ : Type} (deviceEndpoints : List (String × String))
    (masterHostIp : String)
    (getReq : String → String → String → Except EheimError δ)
    (device : EheimDevice) : Except PyError δ :=
  match dictLookup deviceEndpoints device.version with
  | none => .error (.keyError device.version)
  | some endpoint =>
    match getReq masterHostIp endpoint device.mac with
    | .ok v => .ok v
    | .error e => .error (.domain e)

/-- The possible outcomes of one `_async_update_data` call: a returned
snapshot, a raised `UpdateFailed` wrapping the caught domain error, or an
exception that the `except EheimDigitalError` clause does not catch and
that escapes the method. -/
inductive CycleOutcome (δ : Type)
  | snapshot (s : List (String × δ))
  | updateFailed (e : EheimError)
  | uncaught (e : PyError)
  deriving Repr, DecidableEq

/-- The `for` loop of `_async_update_data` (coordinator.py lines 45-51):
fetch each device's data in list order, accumulating
`all_device_data[device.mac] = device_data`; the first error aborts the
loop. -/
def runUpdateLoop {δ : Type} (fetch : EheimDevice → Except PyError δ) :
    List EheimDevice → List (String × δ) → Except PyError (List (String × δ))
  | [], acc => .ok acc
  | d :: ds, acc =>
    match fetch d with
    | .ok v => runUpdateLoop fetch ds (dictInsert acc d.mac v)
    | .error e => .error e

/-- Embedding of `EheimDigitalDataUpdateCoordinator._async_update_data`
(coordinator.py lines 34-62): the loop runs inside a `try` whose
`except EheimDigitalError` clause re-raises the error as `UpdateFailed`;
any other exception (such as the `KeyError` of `get_device_data`) is not
caught and escapes. -/
def asyncUpdateData {δ : Type} (fetch : EheimDevice → Except PyError δ)
    (devices : List EheimDevice) : CycleOutcome δ :=
  match runUpdateLoop fetch devices [] with
  | .ok s => .snapshot s
  | .error (.domain e) => .updateFailed e
  | .error (.keyError k) => .uncaught (.keyError k)

/-- The devices for which the loop of `_async_update_data` issues a
`get_device_data` call: the loop body runs once per device until (and
including) the first whose fetch raises. -/
def fetchedDevices {δ : Type} (fetch : EheimDevice → Except PyError δ) :
    List EheimDevice → List EheimDevice
  | [] => []
  | d :: ds =>
    match fetch d with
    | .ok _ => d :: fetchedDevices fetch ds
    | .error _ => [d]

/-- Modelled from the spec: the host scheduler observing the coordinator
(an external collaborator) publishes the snapshot a cycle returns and keeps
the previously published snapshot when the cycle raises instead of
returning. -/
def publishCycle {δ : Type} (prev : List (String × δ)) :
    CycleOutcome δ → List (String × δ)
  | .snapshot s => s
  | .updateFailed _ => prev
  | .uncaught _ => prev


/-! ## Coordinator lemmas -/

theorem exceptOk_exists {ε α : Type} {x : Except ε α} (h : x.isOk = true) :
    ∃ v, x = .ok v := by
  cases x with
  | ok v => exact ⟨v, rfl⟩
  | error e => simp [Except.isOk, Except.toBool] at h

/-- The update loop aborts with the first error: when every device before
`dK` fetches successfully and `dK` raises `pe`, the whole loop raises
`pe`, whatever the accumulator. -/
theorem runUpdateLoop_error {δ : Type} (fetch : EheimDevice → Except PyError δ)
    (pre : List EheimDevice) (dK : EheimDevice) (post : List EheimDevice)
    (pe : PyError) (hpre : ∀ d ∈ pre, (fetch d).isOk = true)
    (hK : fetch dK = .error pe) :
    ∀ acc, runUpdateLoop fetch (pre ++ dK :: post) acc = .error pe := by
  induction pre with
  | nil => intro acc; simp [runUpdateLoop, hK]
  | cons d rest ih =>
    intro acc
    obtain ⟨v, hv⟩ := exceptOk_exists (hpre d (by simp))
    simpa [runUpdateLoop, hv] using
      ih (fun d' hd' => hpre d' (by simp [hd'])) (dictInsert acc d.mac v)

/-- The loop body runs exactly for the devices up to and including the
first one whose fetch raises. -/
theorem fetchedDevices_error {δ : Type} (fetch : EheimDevice → Except PyError δ)
    (pre : List EheimDevice) (dK : EheimDevice) (post : List EheimDevice)
    (pe : PyError) (hpre : ∀ d ∈ pre, (fetch d).isOk = true)
    (hK : fetch dK = .error pe) :
    fetchedDevices fetch (pre ++ dK :: post) = pre ++ [dK] := by
  induction pre with
  | nil => simp [fetchedDevices, hK]
  | cons d rest ih =>
    obtain ⟨v, hv⟩ := exceptOk_exists (hpre d (by simp))
    simpa [fetchedDevices, hv] using ih (fun d' hd' => hpre d' (by simp [hd']))

/-- When every fetch succeeds the loop returns a snapshot; keys outside the
device list are untouched, and with pairwise distinct macs each device's mac
maps to its fetched data. -/
theorem runUpdateLoop_ok {δ : Type} (fetch : EheimDevice → Except PyError δ)
    (ds : List EheimDevice) (hok : ∀ d ∈ ds, (fetch d).isOk = true) :
    ∀ acc, ∃ s, runUpdateLoop fetch ds acc = .ok s
      ∧ (∀ k, k ∉ ds.map (fun d => d.mac) → dictLookup s k = dictLookup acc k)
      ∧ ((ds.map (fun d => d.mac)).Nodup →
          ∀ d ∈ ds, dictLookup s d.mac = (fetch d).toOption) := by
  induction ds with
  | nil =>
    intro acc
    exact ⟨acc, rfl, fun k _ => rfl, fun _ d hd => absurd hd (List.not_mem_nil d)⟩
  | cons d0 rest ih =>
    intro acc
    obtain ⟨v, hv⟩ := exceptOk_exists (hok d0 (by simp))
    obtain ⟨s, hs, hframe, hlook⟩ :=
      ih (fun d' hd' => hok d' (by simp [hd'])) (dictInsert acc d0.mac v)
    refine ⟨s, by simp [runUpdateLoop, hv, hs], ?_, ?_⟩
    · intro k hk
      simp only [List.map_cons, List.mem_cons, not_or] at hk
      rw [hframe k hk.2]
      exact dictLookup_dictInsert_other acc d0.mac k v hk.1
    · intro hnd d hd
      rw [List.map_cons, List.nodup_cons] at hnd
      rcases List.mem_cons.mp hd with h0 | hrest
      · subst h0
        rw [hframe d.mac hnd.1,
          dictLookup_dictInsert_self acc d.mac v, hv]
        rfl
      · exact hlook hnd.2 d hrest

/-- C2: a poll cycle over any device list fails fast.  If every device
before `dK` fetches successfully and `dK` raises a domain error, the cycle
raises `UpdateFailed` with that error, no device after `dK` is fetched, and
the published snapshot stays the previous one; if every fetch succeeds, the
cycle returns a snapshot mapping each device's mac to its fetched data. -/
theorem coordinator_fail_fast_and_aggregate {δ : Type}
    (fetch : EheimDevice → Except PyError δ) (devices : List EheimDevice) :
    (∀ pre dK post e, devices = pre ++ dK :: post →
      (∀ d ∈ pre, (fetch d).isOk = true) →
      fetch dK = .error (.domain e) →
      asyncUpdateData fetch devices = .updateFailed e
      ∧ fetchedDevices fetch devices = pre ++ [dK]
      ∧ ∀ prev, publishCycle prev (asyncUpdateData fetch devices) = prev)
    ∧ ((∀ d ∈ devices, (fetch d).isOk = true) →
        (devices.map (fun d => d.mac)).Nodup →
        ∃ s, asyncUpdateData fetch devices = .snapshot s
          ∧ ∀ d ∈ devices, dictLookup s d.mac = (fetch d).toOption) := by
  constructor
  · rintro pre dK post e rfl hpre hK
    have h1 := runUpdateLoop_error fetch pre dK post (.domain e) hpre hK []
    have h2 := fetchedDevices_error fetch pre dK post (.domain e) hpre hK
    refine ⟨by simp [asyncUpdateData, h1], h2, ?_⟩
    intro prev
    simp [asyncUpdateData, h1, publishCycle]
  · intro hok hnd
    obtain ⟨s, hs, _, hlook⟩ := runUpdateLoop_ok fetch devices hok []
    exact ⟨s, by simp [asyncUpdateData, hs], hlook hnd⟩

/-- Device-list and fetch-function fixtures used to instantiate the
coordinator theorems. -/
def devA : EheimDevice := { mac := "A", ip := "10.0.0.1", version := "v1" }

def devB : EheimDevice := { mac := "B", ip := "10.0.0.2", version := "v1" }

def devC : EheimDevice := { mac := "C", ip := "10.0.0.3", version := "v2" }

/-- A fetch function that raises a domain error for `devB` only. -/
def fetchFailB : EheimDevice → Except PyError Nat :=
  fun d => if d.mac = "B" then .error (.domain .connectionError) else .ok 7

/-- C2 witness: the fail-fast theorem at a concrete device list whose second
device raises a domain error. -/
theorem coordinator_fail_fast_witness :
    asyncUpdateData fetchFailB [devA, devB, devC] = .updateFailed .connectionError
    ∧ fetchedDevices fetchFailB [devA, devB, devC] = [devA, devB]
    ∧ publishCycle [("A", 1)] (asyncUpdateData fetchFailB [devA, devB, devC])
        = [("A", 1)] := by
  have h := (coordinator_fail_fast_and_aggregate fetchFailB [devA, devB, devC]).1
    [devA] devB [devC] .connectionError rfl (by decide) rfl
  exact ⟨h.1, h.2.1, h.2.2 [("A", 1)]⟩

/-- C10: when every device before `dK` fetches successfully and `dK` has a
version that is not a key of the endpoint table, the cycle ends in the
uncaught `KeyError` — it is not converted into `UpdateFailed`. -/
theorem coordinator_keyError_escapes {δ : Type}
    (deviceEndpoints : List (String × String)) (masterHostIp : String)
    (getReq : String → String → String → Except EheimError δ)
    (devices pre post : List EheimDevice) (dK : EheimDevice)
    (hdev : devices = pre ++ dK :: post)
    (hpre : ∀ d ∈ pre,
      (get_device_data deviceEndpoints masterHostIp getReq d).isOk = true)
    (hmiss : dictLookup deviceEndpoints dK.version = none) :
    asyncUpdateData (get_device_data deviceEndpoints masterHostIp getReq) devices
      = .uncaught (.keyError dK.version)
    ∧ ∀ e, asyncUpdateData (get_device_data deviceEndpoints masterHostIp getReq)
        devices ≠ .updateFailed e := by
  subst hdev
  have hK : get_device_data deviceEndpoints masterHostIp getReq dK
      = .error (.keyError dK.version) := by
    simp [get_device_data, hmiss]
  have h1 := runUpdateLoop_error _ pre dK post _ hpre hK []
  constructor
  · simp [asyncUpdateData, h1]
  · intro e
    simp [asyncUpdateData, h1]

/-- An endpoint table that knows version `v1` only, and a request function
for instantiating the client theorems. -/
def tableV1 : List (String × String) := [("v1", "filter/state")]

/-- A request function recording host, endpoint and `to` parameter. -/
def getReq0 : String → String → String → Except EheimError (List String) :=
  fun host endpoint toParam => .ok [host, endpoint, toParam]

/-- C10 witness: the escape theorem at a concrete device list whose second
device has the unknown version `v2`. -/
theorem coordinator_keyError_escapes_witness :
    asyncUpdateData (get_device_data tableV1 "10.0.0.9" getReq0) [devA, devC]
      = .uncaught (.keyError "v2") := by
  have h := coordinator_keyError_escapes tableV1 "10.0.0.9" getReq0
    [devA, devC] [devA] [] devC rfl (by decide) (by decide)
  exact h.1

/-! ## fetch_devices (C4) and get_device_data (C7) -/

/-- When every per-address userdata GET succeeds, the loop returns one
device per address, in address order, each carrying the address it was
fetched from and built from the userdata fetched there. -/
theorem fetchDevicesLoop_ok (getUserdata : String → Except EheimError Userdata)
    (ips : List String) (hok : ∀ ip ∈ ips, (getUserdata ip).isOk = true) :
    ∃ devs, fetchDevicesLoop getUserdata ips = .ok devs
      ∧ devs.map (fun d => d.ip) = ips
      ∧ ∀ d ∈ devs, ∃ u, getUserdata d.ip = .ok u ∧ d = mkEheimDevice u d.ip := by
  induction ips with
  | nil => exact ⟨[], rfl, rfl, fun d hd => absurd hd (List.not_mem_nil d)⟩
  | cons ip rest ih =>
    obtain ⟨u, hu⟩ := exceptOk_exists (hok ip (by simp))
    obtain ⟨devs, hs, hmap, hmk⟩ := ih (fun ip' hip' => hok ip' (by simp [hip']))
    refine ⟨mkEheimDevice u ip :: devs, by simp [fetchDevicesLoop, hu, hs], ?_, ?_⟩
    · simp [mkEheimDevice, hmap]
    · intro d hd
      rcases List.mem_cons.mp hd with h0 | hrest
      · exact ⟨u, by simp [h0, mkEheimDevice, hu]⟩
      · exact hmk d hrest

/-- A failing userdata GET for any address of the list makes the whole loop
fail: no partial device list is returned. -/
theorem fetchDevicesLoop_error (getUserdata : String → Except EheimError Userdata)
    (ips : List String) (ip0 : String) (hmem : ip0 ∈ ips) (e : EheimError)
    (herr : getUserdata ip0 = .error e) :
    ∃ e2, fetchDevicesLoop getUserdata ips = .error e2 := by
  induction ips with
  | nil => exact absurd hmem (List.not_mem_nil ip0)
  | cons ip rest ih =>
    rcases List.mem_cons.mp hmem with h0 | hrest
    · subst h0
      exact ⟨e, by simp [fetchDevicesLoop, herr]⟩
    · cases hu : getUserdata ip with
      | error e' => exact ⟨e', by simp [fetchDevicesLoop, hu]⟩
      | ok u =>
        obtain ⟨e2, h2⟩ := ih hrest
        exact ⟨e2, by simp [fetchDevicesLoop, hu, h2]⟩

/-- C4: `fetch_devices` returns one device per address of `clientIPList`,
in list order, each carrying the address it was fetched from; a failure of
any per-device userdata GET fails the whole fetch. -/
theorem fetch_devices_order_all_or_nothing
    (getUserdata : String → Except EheimError Userdata) (ips : List String) :
    ((∀ ip ∈ ips, (getUserdata ip).isOk = true) →
      ∃ devs, fetch_devices (.ok ips) getUserdata = .ok devs
        ∧ devs.map (fun d => d.ip) = ips
        ∧ ∀ d ∈ devs, ∃ u, getUserdata d.ip = .ok u ∧ d = mkEheimDevice u d.ip)
    ∧ (∀ ip0 ∈ ips, ∀ e, getUserdata ip0 = .error e →
        ∃ e2, fetch_devices (.ok ips) getUserdata = .error e2) := by
  constructor
  · intro hok
    obtain ⟨devs, hs, hmap, hmk⟩ := fetchDevicesLoop_ok getUserdata ips hok
    exact ⟨devs, by simpa [fetch_devices] using hs, hmap, hmk⟩
  · intro ip0 hmem e herr
    obtain ⟨e2, h2⟩ := fetchDevicesLoop_error getUserdata ips ip0 hmem e herr
    exact ⟨e2, by simpa [fetch_devices] using h2⟩

/-- A userdata source for the fetch-devices fixtures. -/
def getU0 : String → Except EheimError Userdata :=
  fun ip =>
    if ip = "10.0.0.5" then .ok { mac := "AA", version := "v1" }
    else if ip = "10.0.0.6" then .ok { mac := "BB", version := "v2" }
    else .error .connectionError

/-- C4 witness: the order theorem at a concrete two-address list where both
GETs succeed, and the all-or-nothing part at a list whose second GET
fails. -/
theorem fetch_devices_order_all_or_nothing_witness :
    (∃ devs, fetch_devices (.ok ["10.0.0.5", "10.0.0.6"]) getU0 = .ok devs
      ∧ devs.map (fun d => d.ip) = ["10.0.0.5", "10.0.0.6"])
    ∧ ∃ e2, fetch_devices (.ok ["10.0.0.5", "10.0.0.7"]) getU0 = .error e2 := by
  constructor
  · obtain ⟨devs, hs, hmap, _⟩ :=
      (fetch_devices_order_all_or_nothing getU0 ["10.0.0.5", "10.0.0.6"]).1
        (by decide)
    exact ⟨devs, hs, hmap⟩
  · exact (fetch_devices_order_all_or_nothing getU0 ["10.0.0.5", "10.0.0.7"]).2
      "10.0.0.7" (by decide) .connectionError rfl

/-- C7: when the device's version is a key of the endpoint table,
`get_device_data` issues the GET to the master host — independently of the
device's own `ip` — at the looked-up endpoint with the device's `mac` as the
`to` parameter; when the version is absent, it fails with the `KeyError` of
the table lookup, which is not a domain (transport) error. -/
theorem get_device_data_routing {δ : Type}
    (deviceEndpoints : List (String × String)) (masterHostIp : String)
    (getReq : String → String → String → Except EheimError δ)
    (device : EheimDevice) :
    (∀ ip2, get_device_data deviceEndpoints masterHostIp getReq
        { device with ip := ip2 }
      = get_device_data deviceEndpoints masterHostIp getReq device)
    ∧ (∀ endpoint, dictLookup deviceEndpoints device.version = some endpoint →
        get_device_data deviceEndpoints masterHostIp getReq device
          = (getReq masterHostIp endpoint device.mac).mapError .domain)
    ∧ (dictLookup deviceEndpoints device.version = none →
        get_device_data deviceEndpoints masterHostIp getReq device
          = .error (.keyError device.version)
        ∧ ∀ e, (Except.error (.keyError device.version) : Except PyError δ)
            ≠ .error (.domain e)) := by
  refine ⟨fun ip2 => rfl, ?_, ?_⟩
  · intro endpoint h
    cases hr : getReq masterHostIp endpoint device.mac with
    | ok v => simp [get_device_data, h, hr, Except.mapError]
    | error e => simp [get_device_data, h, hr, Except.mapError]
  · intro h
    exact ⟨by simp [get_device_data, h], fun e => by simp⟩

/-- C7 witness: the routing theorem at the concrete table knowing `v1`
only, for a device of version `v1` (GET issued to the master host) and one
of version `v2` (`KeyError`). -/
theorem get_device_data_routing_witness :
    get_device_data tableV1 "10.0.0.9" getReq0 devA
      = .ok ["10.0.0.9", "filter/state", "A"]
    ∧ get_device_data tableV1 "10.0.0.9" getReq0
        { devA with ip := "10.9.9.9" }
      = get_device_data tableV1 "10.0.0.9" getReq0 devA
    ∧ get_device_data tableV1 "10.0.0.9" getReq0 devC
      = .error (.keyError "v2") := by
  refine ⟨?_, ?_, ?_⟩
  · rw [(get_device_data_routing tableV1 "10.0.0.9" getReq0 devA).2.1
      "filter/state" (by decide)]
    rfl
  · exact (get_device_data_routing tableV1 "10.0.0.9" getReq0 devA).1 "10.9.9.9"
  · exact ((get_device_data_routing tableV1 "10.0.0.9" getReq0 devC).2.2
      (by decide)).1

/-! ## Switch platform (switch.py)

The entity's `_switch_data` is the snapshot entry stored under its device's
mac, mutated in place; the embedding therefore carries the whole snapshot
and applies the entity's single-key writes through it.  `writes` counts the
calls to `async_write_ha_state`. -/

/-- The entity state of `EheimSwitch` that the claims depend on: the
device's `mac`, the description's `state_key`, `_attr_available`, and the
number of `async_write_ha_state` calls made so far. -/
structure EheimSwitch where
  mac : String
  stateKey : String
  available : Bool
  writes : Nat
  deriving Repr, DecidableEq

/-- Writing `self._switch_data[state_key] = v` through the snapshot: the
entry stored under the entity's mac is updated in place, every other entry
is untouched. -/
def snapSetKey (snap : List (String × List (String × Int)))
    (mac stateKey : String) (v : Int) : List (String × List (String × Int)) :=
  snap.map fun p => if p.1 = mac then (p.1, dictInsert p.2 stateKey v) else p

/-- Reading one key of one device's snapshot entry. -/
def snapGet (snap : List (String × List (String × Int)))
    (mac k : String) : Option Int :=
  match dictLookup snap mac with
  | some entry => dictLookup entry k
  | none => none

theorem dictLookup_snapSetKey (snap : List (String × List (String × Int)))
    (mac stateKey : String) (v : Int) (m : String) :
    dictLookup (snapSetKey snap mac stateKey v) m
      = if m = mac then
          (dictLookup snap mac).map (fun entry => dictInsert entry stateKey v)
        else dictLookup snap m := by
  induction snap with
  | nil => by_cases h : m = mac <;> simp [snapSetKey, dictLookup, h]
  | cons p rest ih =>
    simp only [snapSetKey, List.map_cons] at ih ⊢
    by_cases hp : p.1 = mac
    · rw [if_pos hp]
      by_cases hm : p.1 = m
      · have hmmac : m = mac := hm ▸ hp
        simp [dictLookup, hm, hmmac, hp]
      · have hmne : ¬ m = mac := fun h2 => hm (h2 ▸ hp)
        simp [dictLookup, hm, hmne, ih]
    · rw [if_neg hp]
      by_cases hm : p.1 = m
      · have hmne : ¬ m = mac := fun h2 => hp (h2 ▸ hm)
        simp [dictLookup, hm, hmne]
      · by_cases hmmac : m = mac
        · subst hmmac
          simp [dictLookup, hm, hp, ih]
        · simp [dictLookup, hm, hmmac, ih]

theorem snapGet_snapSetKey_self (snap : List (String × List (String × Int)))
    (mac stateKey : String) (v : Int)
    (hmac : (dictLookup snap mac).isSome = true) :
    snapGet (snapSetKey snap mac stateKey v) mac stateKey = some v := by
  obtain ⟨entry, he⟩ := Option.isSome_iff_exists.mp hmac
  simp [snapGet, dictLookup_snapSetKey, he, dictLookup_dictInsert_self]

theorem snapGet_snapSetKey_other_key (snap : List (String × List (String × Int)))
    (mac stateKey : String) (v : Int) (k : String) (hk : k ≠ stateKey) :
    snapGet (snapSetKey snap mac stateKey v) mac k = snapGet snap mac k := by
  cases he : dictLookup snap mac with
  | none => simp [snapGet, dictLookup_snapSetKey, he]
  | some entry =>
    simp [snapGet, dictLookup_snapSetKey, he,
      dictLookup_dictInsert_other entry stateKey k v hk]

theorem dictLookup_snapSetKey_other_mac (snap : List (String × List (String × Int)))
    (mac stateKey : String) (v : Int) (m : String) (hm : m ≠ mac) :
    dictLookup (snapSetKey snap mac stateKey v) m = dictLookup snap m := by
  simp [dictLookup_snapSetKey, hm]

/-- Embedding of `EheimSwitch.async_turn_on` (switch.py lines 121-126): the
command is awaited with no exception handling, so an error propagates and
neither the optimistic write nor `async_write_ha_state` runs; on success
the entity sets `_switch_data[state_key] = 1` and writes its state. -/
def asyncTurnOn (sw : EheimSwitch) (cmd : Except EheimError Unit)
    (snap : List (String × List (String × Int))) :
    List (String × List (String × Int)) × EheimSwitch × Option EheimError :=
  match cmd with
  | .ok _ =>
    (snapSetKey snap sw.mac sw.stateKey 1,
      { sw with writes := sw.writes + 1 }, none)
  | .error e => (snap, sw, some e)

/-- Embedding of `EheimSwitch.async_turn_off` (switch.py lines 128-142):
on success the entity sets `_switch_data[state_key] = 0` and writes its
state; an `EheimDigitalError` is caught, the entity is marked unavailable
and its state is still written, and nothing is re-raised. -/
def asyncTurnOff (sw : EheimSwitch) (cmd : Except EheimError Unit)
    (snap : List (String × List (String × Int))) :
    List (String × List (String × Int)) × EheimSwitch × Option EheimError :=
  match cmd with
  | .ok _ =>
    (snapSetKey snap sw.mac sw.stateKey 0,
      { sw with writes := sw.writes + 1 }, none)
  | .error _ =>
    (snap, { sw with available := false, writes := sw.writes + 1 }, none)

/-- A switch entity fixture and the snapshot holding its entry. -/
def sw0 : EheimSwitch :=
  { mac := "AA", stateKey := "filterActive", available := true, writes := 0 }

def snap0 : List (String × List (String × Int)) :=
  [("AA", [("filterActive", 0)]), ("BB", [("active", 1)])]

/-- C3 counterexample: when the command raises, `async_turn_on` neither
sets the state key to 1 nor writes the entity state — the claim's "for
every outcome" fails at this concrete failing command. -/
theorem turn_on_always_flips_counterexample :
    ¬ (snapGet (asyncTurnOn sw0 (.error .connectionError) snap0).1
          "AA" "filterActive" = some 1
        ∧ (asyncTurnOn sw0 (.error .connectionError) snap0).2.1.writes
            = sw0.writes + 1)
    ∧ snapGet (asyncTurnOn sw0 (.error .connectionError) snap0).1
        "AA" "filterActive" = some 0
    ∧ (asyncTurnOn sw0 (.error .connectionError) snap0).2.1.writes = 0
    ∧ (asyncTurnOn sw0 (.error .connectionError) snap0).2.2
        = some .connectionError := by
  refine ⟨?_, rfl, rfl, rfl⟩
  intro h
  exact absurd h.1 (by decide)

/-- C3 (amended): `async_turn_on` sets the entity's state key to 1 and
signals a state change when the command call succeeds; when the command
raises, the error propagates and the local state is unchanged with no state
change signalled. -/
theorem turn_on_optimistic_on_success (sw : EheimSwitch)
    (cmd : Except EheimError Unit) (snap : List (String × List (String × Int)))
    (hmac : (dictLookup snap sw.mac).isSome = true) :
    (cmd = .ok () →
      snapGet (asyncTurnOn sw cmd snap).1 sw.mac sw.stateKey = some 1
      ∧ (asyncTurnOn sw cmd snap).2.1.writes = sw.writes + 1
      ∧ (asyncTurnOn sw cmd snap).2.2 = none)
    ∧ (∀ e, cmd = .error e → asyncTurnOn sw cmd snap = (snap, sw, some e)) := by
  constructor
  · rintro rfl
    exact ⟨snapGet_snapSetKey_self snap sw.mac sw.stateKey 1 hmac, rfl, rfl⟩
  · rintro e rfl
    rfl

/-- C3 witness: the amended turn-on theorem at the concrete entity, a
successful command and a failing command. -/
theorem turn_on_optimistic_on_success_witness :
    (snapGet (asyncTurnOn sw0 (.ok ()) snap0).1 "AA" "filterActive" = some 1
      ∧ (asyncTurnOn sw0 (.ok ()) snap0).2.1.writes = 1)
    ∧ asyncTurnOn sw0 (.error .authError) snap0
        = (snap0, sw0, some .authError) := by
  have h := turn_on_optimistic_on_success sw0 (.ok ()) snap0 (by decide)
  have h2 := turn_on_optimistic_on_success sw0 (.error .authError) snap0
    (by decide)
  exact ⟨⟨(h.1 rfl).1, (h.1 rfl).2.1⟩, h2.2 .authError rfl⟩

/-- C6: `async_turn_off` marks the entity unavailable exactly when the
command raised, signals a state change in both the success and the failure
case, swallows the error, and on success sets the state key to 0. -/
theorem turn_off_unavailable_iff_error (sw : EheimSwitch)
    (cmd : Except EheimError Unit) (snap : List (String × List (String × Int)))
    (hav : sw.available = true)
    (hmac : (dictLookup snap sw.mac).isSome = true) :
    ((asyncTurnOff sw cmd snap).2.1.available = false ↔ ∃ e, cmd = .error e)
    ∧ (asyncTurnOff sw cmd snap).2.1.writes = sw.writes + 1
    ∧ (asyncTurnOff sw cmd snap).2.2 = none
    ∧ (cmd = .ok () →
        snapGet (asyncTurnOff sw cmd snap).1 sw.mac sw.stateKey = some 0) := by
  cases cmd with
  | ok u =>
    refine ⟨⟨fun h => ?_, fun ⟨e, he⟩ => by cases he⟩, rfl, rfl, fun _ => ?_⟩
    · rw [show (asyncTurnOff sw (.ok u) snap).2.1.available = sw.available
        from rfl, hav] at h
      cases h
    · exact snapGet_snapSetKey_self snap sw.mac sw.stateKey 0 hmac
  | error e =>
    exact ⟨⟨fun _ => ⟨e, rfl⟩, fun _ => rfl⟩, rfl, rfl, fun h => by cases h⟩

/-- C6 witness: the turn-off theorem at the concrete entity for a failing
and for a successful command. -/
theorem turn_off_unavailable_iff_error_witness :
    (asyncTurnOff sw0 (.error .connectionError) snap0).2.1.available = false
    ∧ (asyncTurnOff sw0 (.error .connectionError) snap0).2.1.writes = 1
    ∧ (asyncTurnOff sw0 (.ok ()) snap0).2.1.available = true
    ∧ snapGet (asyncTurnOff sw0 (.ok ()) snap0).1 "AA" "filterActive"
        = some 0 := by
  have hfail := turn_off_unavailable_iff_error sw0 (.error .connectionError)
    snap0 rfl (by decide)
  have hok := turn_off_unavailable_iff_error sw0 (.ok ()) snap0 rfl (by decide)
  refine ⟨hfail.1.mpr ⟨.connectionError, rfl⟩, hfail.2.1, ?_, hok.2.2.2 rfl⟩
  by_contra h
  exact absurd ((hok.1.mp (by revert h; decide)).choose_spec) (by simp)

/-- C9: a switch command (turn on or turn off) mutates at most the state
key of its own device's snapshot entry, and only when the command
succeeded: on a failing command the snapshot is completely unchanged, and
in every case all other macs' entries and all other keys of the entity's
own entry keep their values. -/
theorem switch_command_frame (sw : EheimSwitch) (cmd : Except EheimError Unit)
    (snap : List (String × List (String × Int))) :
    (∀ e, cmd = .error e →
      (asyncTurnOn sw cmd snap).1 = snap ∧ (asyncTurnOff sw cmd snap).1 = snap)
    ∧ (∀ m, m ≠ sw.mac →
        dictLookup (asyncTurnOn sw cmd snap).1 m = dictLookup snap m
        ∧ dictLookup (asyncTurnOff sw cmd snap).1 m = dictLookup snap m)
    ∧ (∀ k, k ≠ sw.stateKey →
        snapGet (asyncTurnOn sw cmd snap).1 sw.mac k = snapGet snap sw.mac k
        ∧ snapGet (asyncTurnOff sw cmd snap).1 sw.mac k = snapGet snap sw.mac k)
    ∧ (cmd = .ok () → (dictLookup snap sw.mac).isSome = true →
        snapGet (asyncTurnOn sw cmd snap).1 sw.mac sw.stateKey = some 1
        ∧ snapGet (asyncTurnOff sw cmd snap).1 sw.mac sw.stateKey = some 0) := by
  refine ⟨?_, ?_, ?_, ?_⟩
  · rintro e rfl
    exact ⟨rfl, rfl⟩
  · intro m hm
    cases cmd with
    | ok u =>
      exact ⟨dictLookup_snapSetKey_other_mac snap sw.mac sw.stateKey 1 m hm,
        dictLookup_snapSetKey_other_mac snap sw.mac sw.stateKey 0 m hm⟩
    | error e => exact ⟨rfl, rfl⟩
  · intro k hk
    cases cmd with
    | ok u =>
      exact ⟨snapGet_snapSetKey_other_key snap sw.mac sw.stateKey 1 k hk,
        snapGet_snapSetKey_other_key snap sw.mac sw.stateKey 0 k hk⟩
    | error e => exact ⟨rfl, rfl⟩
  · rintro rfl hmac
    exact ⟨snapGet_snapSetKey_self snap sw.mac sw.stateKey 1 hmac,
      snapGet_snapSetKey_self snap sw.mac sw.stateKey 0 hmac⟩

/-- C9 witness: the frame theorem at the concrete entity and snapshot,
checking the untouched other-device entry, the untouched other key, the
unchanged snapshot on a failing command, and the single-key write on a
successful one. -/
theorem switch_command_frame_witness :
    dictLookup (asyncTurnOn sw0 (.ok ()) snap0).1 "BB"
      = dictLookup snap0 "BB"
    ∧ snapGet (asyncTurnOn sw0 (.ok ()) snap0).1 "AA" "otherKey"
        = snapGet snap0 "AA" "otherKey"
    ∧ (asyncTurnOn sw0 (.error .base) snap0).1 = snap0
    ∧ snapGet (asyncTurnOn sw0 (.ok ()) snap0).1 "AA" "filterActive"
        = some 1 := by
  have hok := switch_command_frame sw0 (.ok ()) snap0
  have hfail := switch_command_frame sw0 (.error .base) snap0
  exact ⟨(hok.2.1 "BB" (by decide)).1, (hok.2.2.1 "otherKey" (by decide)).1,
    (hfail.1 .base rfl).2.symm ▸ (hfail.1 .base rfl).1,
    (hok.2.2.2 rfl (by decide)).1⟩

/-! ## Config flow (config_flow.py) -/

/-- The result of one `async_step_user` call with user input provided. -/
inductive FlowResult
  | createEntry (title : String)
  | showForm (errors : List (String × String))
  deriving Repr, DecidableEq

/-- Embedding of `EheimDigitalFlowHandler._test_host_connection`
(config_flow.py lines 50-60): GET the `devicelist` document from the host;
a falsy decoded document (`not devices`, i.e. an empty JSON object) raises
a bare `EheimDigitalError`; an error from the GET propagates unchanged. -/
def test_host_connection {δ : Type}
    (fetchDevicelist : Except EheimError (List (String × δ))) :
    Except EheimError Unit :=
  match fetchDevicelist with
  | .error e => .error e
  | .ok devices => if devices.isEmpty then .error .base else .ok ()

/-- Embedding of `EheimDigitalFlowHandler.async_step_user` (config_flow.py
lines 19-48) on the path where user input is present: a successful host
test creates the entry titled with the entered IP address; a caught
`EheimDigitalError` shows the form again with the single
`communication_error` base error. -/
def async_step_user {δ : Type} (ipAddress : String)
    (fetchDevicelist : Except EheimError (List (String × δ))) : FlowResult :=
  match test_host_connection fetchDevicelist with
  | .ok _ => .createEntry ipAddress
  | .error _ => .showForm [("base", "communication_error")]

/-- C8: the host test raises a domain error exactly when the devicelist
fetch fails or the fetched document is empty, the user step surfaces that
error as the single `communication_error` form error in exactly those
cases, and on a non-empty fetched document it creates the entry. -/
theorem config_flow_validation {δ : Type} (ipAddress : String)
    (fetchDevicelist : Except EheimError (List (String × δ))) :
    ((∃ e, test_host_connection fetchDevicelist = .error e) ↔
      (∃ e, fetchDevicelist = .error e) ∨ fetchDevicelist = .ok [])
    ∧ (async_step_user ipAddress fetchDevicelist
        = .showForm [("base", "communication_error")] ↔
      (∃ e, fetchDevicelist = .error e) ∨ fetchDevicelist = .ok [])
    ∧ (∀ doc, fetchDevicelist = .ok doc → doc ≠ [] →
        async_step_user ipAddress fetchDevicelist = .createEntry ipAddress) := by
  refine ⟨?_, ?_, ?_⟩
  · cases hf : fetchDevicelist with
    | error e => simp [test_host_connection]
    | ok doc =>
      cases doc with
      | nil => simp [test_host_connection]
      | cons p rest => simp [test_host_connection]
  · cases hf : fetchDevicelist with
    | error e => simp [async_step_user, test_host_connection]
    | ok doc =>
      cases doc with
      | nil => simp [async_step_user, test_host_connection]
      | cons p rest => simp [async_step_user, test_host_connection]
  · rintro doc rfl hne
    cases doc with
    | nil => exact absurd rfl hne
    | cons p rest => rfl

/-- C8 witness: the validation theorem at a concrete non-empty devicelist
document (entry created), at the empty document and at a failing fetch
(form error both times). -/
theorem config_flow_validation_witness :
    async_step_user "10.0.0.9" (.ok [("clientIPList", ["10.0.0.5"])])
      = .createEntry "10.0.0.9"
    ∧ async_step_user "10.0.0.9" (.ok ([] : List (String × List String)))
        = .showForm [("base", "communication_error")]
    ∧ async_step_user "10.0.0.9"
        (.error .connectionTimeout : Except EheimError (List (String × List String)))
        = .showForm [("base", "communication_error")] := by
  refine ⟨?_, ?_, ?_⟩
  · exact (config_flow_validation "10.0.0.9"
      (.ok [("clientIPList", ["10.0.0.5"])])).2.2
      [("clientIPList", ["10.0.0.5"])] rfl (by decide)
  · exact (config_flow_validation "10.0.0.9"
      (.ok ([] : List (String × List String)))).2.1.mpr (Or.inr rfl)
  · exact (config_flow_validation "10.0.0.9"
      (.error .connectionTimeout : Except EheimError (List (String × List String)))).2.1.mpr
      (Or.inl ⟨.connectionTimeout, rfl⟩)
